import Mathlib

/-!
Verification of the Scratch remote-sensor protocol client
(`scratch/__init__.py`): the framing layer (`_send`, `receive`), the
message encoders (`sensorupdate`, `broadcast`) and the regex-based
message parser (`_parse_message`), shallowly embedded in Lean.

Bytes are modelled as `List Nat` (each element < 256 by construction),
the stream socket as an explicit byte queue consumed by a caller-chosen
`recv` function, and Python exceptions as an error type `PyErr`.
-/

namespace Scratch

/-- Python exception kinds relevant to this module.  The source raises
`struct.error` (short/oversized `struct` buffers), re-raises
`socket.error` as `ScratchConnectionError`, raises `TypeError` in
`sensorupdate`, and can hit the built-in `IndexError` in
`_parse_message`.  `parseError` corresponds to the spec's posited
`ParseError`; the source defines no such class — the constructor exists
only so that statements can compare against it. -/
inductive PyErr where
  | structError
  | connectionError
  | typeError
  | indexError
  | parseError
deriving DecidableEq, Repr

/-- The four big-endian base-256 digits of `n`, as produced by
`struct.pack('!I', n)` for `n < 2^32`. -/
def packDigits (n : Nat) : List Nat :=
  [n / 16777216 % 256, n / 65536 % 256, n / 256 % 256, n % 256]

/-- `struct.pack('!I', n)`: big-endian uint32; raises `struct.error`
when `n` does not fit. -/
def pack_I (n : Nat) : Except PyErr (List Nat) :=
  if n < 4294967296 then .ok (packDigits n) else .error .structError

/-- `struct.unpack('!I', b)`: requires a buffer of exactly 4 bytes,
otherwise raises `struct.error`. -/
def unpack_I (b : List Nat) : Except PyErr Nat :=
  match b with
  | [b0, b1, b2, b3] => .ok (((b0 * 256 + b1) * 256 + b2) * 256 + b3)
  | _ => .error .structError

/-- UTF-8 encoding of one character (what Python's `str.encode()` emits
per code point). -/
def utf8Char (c : Char) : List Nat :=
  let n := c.toNat
  if n < 128 then [n]
  else if n < 2048 then [192 + n / 64, 128 + n % 64]
  else if n < 65536 then [224 + n / 4096, 128 + n / 64 % 64, 128 + n % 64]
  else [240 + n / 262144, 128 + n / 4096 % 64, 128 + n / 64 % 64, 128 + n % 64]

/-- `message.encode()`: the UTF-8 bytes of a string. -/
def utf8Bytes (s : String) : List Nat := s.data.flatMap utf8Char

/-- `Scratch._send(message)`: packs the byte length of the UTF-8
encoding as a 4-byte big-endian value and writes it followed by the
encoded message (`sendall`, all-or-error).  The result carries the full
byte sequence written to the stream. -/
def send_bytes (message : String) : Except PyErr (List Nat) :=
  match pack_I (utf8Bytes message).length with
  | .ok pre => .ok (pre ++ utf8Bytes message)
  | .error e => .error e

/-- A transport: `recv s n` returns the bytes delivered by one
`connection.recv(n)` call and the new stream state.  An empty result
models a gracefully closed connection (Python `recv` returns `b''`). -/
abbrev Recv := List Nat → Nat → List Nat × List Nat

/-- Cooperative transport: one `recv(n)` call delivers up to `n` of the
currently pending bytes. -/
def fullRecv : Recv := fun s n => (s.take n, s.drop n)

/-- Pathological but legal transport: every `recv` call delivers at most
one byte. -/
def oneRecv : Recv := fun s n => (s.take (min 1 n), s.drop (min 1 n))

/-- The read loop of `Scratch.receive`:
`while len(mess) < messlen: mess += self.connection.recv(messlen-len(mess))`.
Python's loop can spin forever when `recv` keeps returning `b''`
(connection closed mid-payload), so the embedding is fuel-indexed:
`none` means the loop did not finish within `fuel` iterations. -/
def recvLoop (recv : Recv) : Nat → Nat → List Nat → List Nat →
    Option (List Nat × List Nat)
  | 0, _, _, _ => none
  | fuel + 1, target, mess, s =>
    if mess.length < target then
      let cs := recv s (target - mess.length)
      recvLoop recv fuel target (mess ++ cs.1) cs.2
    else some (mess, s)

/-- Result of `Scratch.receive(noparse=2)`: the `None` end-of-stream
sentinel, or the accumulated byte buffer.  NOTE: the code's buffer
`mess` starts as the 4 length bytes and the loop appends the payload to
it, so the returned bytes include the length header. -/
inductive RecvOut where
  | eos
  | bytes (b : List Nat)
deriving DecidableEq, Repr

/-- `Scratch.receive(noparse=2)` over a transport: one `recv(4)` call
for the length header (NOT looped), `None` if it yields no bytes,
`struct.unpack('!I')` on whatever it yielded, then the payload read
loop.  `none` models the loop never terminating. -/
def receive_raw (recv : Recv) (fuel : Nat) (s : List Nat) :
    Option (Except PyErr RecvOut) :=
  let first := recv s 4
  if first.1 = [] then some (.ok .eos)
  else
    match unpack_I first.1 with
    | .error e => some (.error e)
    | .ok n =>
      match recvLoop recv fuel (n + 4) first.1 first.2 with
      | none => none
      | some ms => some (.ok (.bytes ms.1))

/-!
### The regular-expression engine

`_parse_message` uses `re.search`/`re.findall` with two fixed patterns.
`Rx` covers exactly the constructs occurring in them; `mrun` is a
CPS-style backtracking matcher with Python `re` semantics: alternatives
are explored in Python's order (greedy quantifiers try longer matches
first, `(?:x|)` tries `x` before the empty branch), and the first
success in that order wins.  `mrun` is fuel-indexed only to make the
mutual recursion structural; every theorem about the parser is either
fuel-generic or evaluated at an ample concrete fuel.
-/

/-- Match a literal character sequence, returning the rest of the
input. -/
def dropLit : List Char → List Char → Option (List Char)
  | [], s => some s
  | _ :: _, [] => none
  | p :: ps, c :: cs => if p = c then dropLit ps cs else none

/-- Regular-expression syntax actually used by the two patterns. -/
inductive Rx where
  /-- a literal string -/
  | lit (cs : List Char)
  /-- a single-character class, e.g. `.` or `[^"]` -/
  | cls (p : Char → Bool)
  /-- concatenation -/
  | seq (rs : List Rx)
  /-- `(?:r|)`: `r` or nothing, `r` tried first -/
  | opt (r : Rx)
  /-- greedy `c*` over a character class -/
  | starCls (p : Char → Bool)
  /-- greedy `(r)+` over a group -/
  | plusGrp (r : Rx)

/-- Greedy `c*`: consume as many class characters as possible, then on
failure of the continuation backtrack to shorter runs. -/
def starRun (p : Char → Bool) (k : List Char → Option (List Char)) :
    List Char → Option (List Char)
  | [] => k []
  | c :: rest =>
    if p c then
      match starRun p k rest with
      | some v => some v
      | none => k (c :: rest)
    else k (c :: rest)

mutual

/-- The backtracking matcher.  `k` receives the input remaining after
the current expression; the result is the first success in Python's
exploration order.  Fuel only bounds recursion depth. -/
def mrun : Nat → Rx → List Char → (List Char → Option (List Char)) →
    Option (List Char)
  | 0, _, _, _ => none
  | fuel + 1, r, s, k =>
    match r with
    | .lit cs =>
      match dropLit cs s with
      | some rest => k rest
      | none => none
    | .cls p =>
      match s with
      | [] => none
      | c :: rest => if p c then k rest else none
    | .seq [] => k s
    | .seq (r1 :: rs) => mrun fuel r1 s (fun s1 => mrun fuel (.seq rs) s1 k)
    | .opt r1 =>
      match mrun fuel r1 s k with
      | some v => some v
      | none => k s
    | .starCls p => starRun p k s
    | .plusGrp r1 => mrun fuel r1 s (fun s1 => starGrp fuel r1 s1 k)

/-- Greedy `(r)*` continuation: try one more iteration first (stopping
if it consumed nothing, as Python does for zero-width repeats), else
stop iterating. -/
def starGrp : Nat → Rx → List Char → (List Char → Option (List Char)) →
    Option (List Char)
  | 0, _, _, _ => none
  | fuel + 1, r1, s, k =>
    match mrun fuel r1 s
        (fun s1 => if s1.length < s.length then starGrp fuel r1 s1 k else k s1) with
    | some v => some v
    | none => k s

end

/-- `re.search`: try a match at each start position, left to right;
return the matched span and the input remaining after it. -/
def searchAux (fuel : Nat) (r : Rx) : List Char → Option (List Char × List Char)
  | [] =>
    match mrun fuel r [] some with
    | some rem => some ([], rem)
    | none => none
  | s@(_ :: rest) =>
    match mrun fuel r s some with
    | some rem => some (s.take (s.length - rem.length), rem)
    | none => searchAux fuel r rest

/-- `re.findall` (patterns without capturing groups): all
non-overlapping matches, scanning left to right and resuming after each
match.  Recursion is structural on `gas`; every recursive call both
consumes one gas unit and moves to a not-longer list, so with
`gas = input length` (see `findallAux`) the `0` case is unreachable. -/
def findallGas (fuel : Nat) (r : Rx) : Nat → List Char → List (List Char)
  | _, [] =>
    (match mrun fuel r [] some with
     | some _ => [[]]
     | none => [])
  | 0, _ :: _ => []
  | gas + 1, s@(_ :: rest) =>
    match mrun fuel r s some with
    | some rem =>
      let len := s.length - rem.length
      if len = 0 then [] :: findallGas fuel r gas rest
      else
        -- `rest.drop (len - 1) = s.drop len` here since `len ≠ 0`
        s.take len :: findallGas fuel r gas (rest.drop (len - 1))
    | none => findallGas fuel r gas rest

/-- `re.findall` over the whole input. -/
def findallAux (fuel : Nat) (r : Rx) (s : List Char) : List (List Char) :=
  findallGas fuel r s.length s

/-- Python `.` (no DOTALL): any character except newline. -/
def dotC : Char → Bool := fun c => c != '\n'

/-- `[^"]`: any character except a double quote. -/
def nonQ : Char → Bool := fun c => c != '"'

/-- `(?:").[^"]*(?:")`: a double-quoted token (first inner character
unconstrained, the rest quote-free). -/
def qtok : Rx := .seq [.lit ['"'], .cls dotC, .starCls nonQ, .lit ['"']]

/-- One repetition of the sensor-update pair group:
`((?:").[^"]*(?:"))[ ](?:"|)(.[^"]*)(?:"|)[ ]` — quoted name, space,
optionally-quoted value, and a MANDATORY trailing space. -/
def pairRx : Rx :=
  .seq [qtok, .lit [' '], .opt (.lit ['"']), .cls dotC, .starCls nonQ,
        .opt (.lit ['"']), .lit [' ']]

/-- `sensorupdate_re = 'sensor-update[ ](((?:\").[^\"]*(?:\"))[ ](?:\"|)(.[^\"]*)(?:\"|)[ ])+'`. -/
def sensorRx : Rx := .seq [.lit ("sensor-update ".data), .plusGrp pairRx]

/-- `broadcast_re = 'broadcast[ ]\".[^"]*\"'`. -/
def broadcastRx : Rx :=
  .seq [.lit ("broadcast \"".data), .cls dotC, .starCls nonQ, .lit ['"']]

/-!
### String post-processing used by `_parse_message`
-/

/-- Python's `str` whitespace characters (ASCII). -/
def isPySpace (c : Char) : Bool :=
  c == ' ' || c == '\t' || c == '\n' || c == '\r' || c == '\x0b' || c == '\x0c'

/-- Strip characters satisfying `p` from both ends (Python
`str.strip`). -/
def stripWith (p : Char → Bool) (l : List Char) : List Char :=
  ((l.dropWhile p).reverse.dropWhile p).reverse

/-- `.strip()`: strip whitespace from both ends. -/
def pyStripWs (l : List Char) : List Char := stripWith isPySpace l

/-- `.strip(' \"')`: strip any mix of spaces and double quotes from
both ends. -/
def stripQS (l : List Char) : List Char :=
  stripWith (fun c => c == ' ' || c == '"') l

/-- `str.replace(p0 :: ps, '')`: delete every non-overlapping
occurrence of the pattern, scanning left to right and resuming after
each deleted occurrence.  Structural on `gas`; each recursive call
moves to a strictly shorter list (a successful `dropLit` returns a
suffix), so with `gas = input length` (see `replaceDel`) the `0` case
is unreachable. -/
def replaceDelGas (p0 : Char) (ps : List Char) : Nat → List Char → List Char
  | _, [] => []
  | 0, l => l
  | gas + 1, c :: rest =>
    if c = p0 then
      match dropLit ps rest with
      | some r => replaceDelGas p0 ps gas r
      | none => c :: replaceDelGas p0 ps gas rest
    else c :: replaceDelGas p0 ps gas rest

/-- `str.replace(p0 :: ps, '')` over the whole input. -/
def replaceDel (p0 : Char) (ps : List Char) (l : List Char) : List Char :=
  replaceDelGas p0 ps l.length l

/-- `.split()`: split on runs of whitespace, no empty fragments.
`cur` accumulates the current word reversed. -/
def splitAccum (cur : List Char) : List Char → List (List Char)
  | [] => if cur = [] then [] else [cur.reverse]
  | c :: rest =>
    if isPySpace c then
      if cur = [] then splitAccum [] rest
      else cur.reverse :: splitAccum [] rest
    else splitAccum (c :: cur) rest

/-- Python `str.split()` with no arguments. -/
def pySplit (l : List Char) : List (List Char) := splitAccum [] l

/-- `fragment[0] == '\"'` (False on the empty fragment, which `split()`
never produces). -/
def headQuote : List Char → Bool
  | [] => false
  | c :: _ => c = '"'

/-- `fragment[-1] == '\"'`. -/
def lastQuote (l : List Char) : Bool :=
  match l.getLast? with
  | some c => c = '"'
  | none => false

/-- The inner `while j < len(...)` loop of `_parse_message`: keep
space-prepending fragments to `multisense` until one ends with a double
quote; returns the accumulated characters and the fragments left after
the consumed ones. -/
def scanMulti : List (List Char) → List Char × List (List Char)
  | [] => ([], [])
  | f :: rest =>
    if lastQuote f then (' ' :: f, rest)
    else
      ((' ' :: f) ++ (scanMulti rest).1, (scanMulti rest).2)

/-- The fragment-reassembly loop of `_parse_message` (lines 121-141):
a fragment opening but not closing a quote absorbs subsequent fragments
until one ends with a quote; quoted tokens are stripped of spaces and
quotes; bare fragments pass through unchanged.  Structural on `gas`;
`scanMulti` never returns more fragments than it was given, so with
`gas = fragment count` (see `reassemble`) the `0` case is
unreachable. -/
def reassembleGas : Nat → List (List Char) → List (List Char)
  | _, [] => []
  | 0, _ :: _ => []
  | gas + 1, f :: rest =>
    if headQuote f then
      if lastQuote f then stripQS f :: reassembleGas gas rest
      else
        stripQS ((' ' :: f) ++ (scanMulti rest).1) ::
          reassembleGas gas (scanMulti rest).2
    else f :: reassembleGas gas rest

/-- The reassembly loop over the whole fragment list. -/
def reassemble (l : List (List Char)) : List (List Char) :=
  reassembleGas l.length l

/-- Python-dict insertion (3.7+ semantics): updating an existing key
keeps its position, a new key is appended. -/
def dictInsert (d : List (String × String)) (k v : String) :
    List (String × String) :=
  if d.any (fun p => p.1 == k) then
    d.map (fun p => if p.1 == k then (k, v) else p)
  else d ++ [(k, v)]

/-- The pairing loop of `_parse_message` (lines 142-146):
`while len(sensors) < len(sensorlist)/2: sensors[sensorlist[i]] = sensorlist[i+1]; i += 2`.
The float comparison `len(sensors) < n/2` is `2*len(sensors) < n` on
integers.  Out-of-range accesses raise `IndexError`.  Structural on
`gas`; the loop body runs at most `⌈len/2⌉ + 1` times before returning
or indexing out of range, so with `gas = len + 1` (see `pairLoop`) the
`0` case is unreachable. -/
def pairLoopGas (l : List String) : Nat → Nat → List (String × String) →
    Except PyErr (List (String × String))
  | 0, _, _ => .error .indexError
  | gas + 1, i, sensors =>
    if 2 * sensors.length < l.length then
      if h : i + 1 < l.length then
        pairLoopGas l gas (i + 2)
          (dictInsert sensors (l.get ⟨i, by omega⟩) (l.get ⟨i + 1, h⟩))
      else .error .indexError
    else .ok sensors

/-- The pairing loop started at `i = 0` with an empty dict. -/
def pairLoop (l : List String) : Except PyErr (List (String × String)) :=
  pairLoopGas l (l.length + 1) 0 []

/-- The result dict `{'sensor-update': sensors, 'broadcast': broadcast}`. -/
structure Parsed where
  sensors : List (String × String)
  broadcast : List String
deriving DecidableEq, Repr

/-- The broadcast extraction (lines 148-151): every `broadcast_re`
match, with every occurrence of the substring `broadcast` deleted and
then quotes/spaces stripped from both ends. -/
def broadcastList (fuel : Nat) (s : List Char) : List String :=
  (findallAux fuel broadcastRx s).map
    (fun m => String.mk (stripQS (replaceDel 'b' "roadcast".data m)))

/-- The flat logical-token list the pairing loop consumes:
`search(sensorupdate_re).group().replace('sensor-update','').strip().split()`
followed by the multi-word reassembly; `[]` when the regex does not
match. -/
def sensorTokens (fuel : Nat) (msg : String) : List String :=
  match searchAux fuel sensorRx msg.data with
  | none => []
  | some mr =>
    (reassemble (pySplit (pyStripWs (replaceDel 's' "ensor-update".data mr.1)))).map
      String.mk

/-- `Scratch._parse_message(message)`: `Except.ok none` models the
Python `None` returned for a falsy (empty) input; errors model uncaught
exceptions escaping the call. -/
def parse_message (fuel : Nat) (msg : String) : Except PyErr (Option Parsed) :=
  if msg.data = [] then .ok none
  else
    match searchAux fuel sensorRx msg.data with
    | none => .ok (some ⟨[], broadcastList fuel msg.data⟩)
    | some _ =>
      match pairLoop (sensorTokens fuel msg) with
      | .error e => .error e
      | .ok sensors => .ok (some ⟨sensors, broadcastList fuel msg.data⟩)

/-!
### The message encoders
-/

/-- An argument passed to `Scratch.sensorupdate`: either an actual dict
(name/value pairs in iteration order, values already rendered by `%s`)
or any non-dict value, identified by its rendering. -/
inductive PyArg where
  | dict (entries : List (String × String))
  | nonDict (r : String)
deriving DecidableEq, Repr

/-- `isinstance(data, dict)`. -/
def isDict : PyArg → Bool
  | .dict _ => true
  | .nonDict _ => false

/-- `Scratch.sensorupdate(data)`: raises `TypeError` before any I/O
unless `data` is a dict; otherwise builds
`'sensor-update' + ' "%s" %s' % (k, v)` per entry and sends it.  The
`ok` value is the byte sequence written to the stream; an error writes
nothing. -/
def sensorupdate (a : PyArg) : Except PyErr (List Nat) :=
  match a with
  | .nonDict _ => .error .typeError
  | .dict entries =>
    send_bytes ("sensor-update" ++
      String.join (entries.map (fun kv => " \"" ++ kv.1 ++ "\" " ++ kv.2)))

/-- Bytes a `_send`-based operation put on the wire: none when it
failed before sending. -/
def writtenBytes : Except PyErr (List Nat) → List Nat
  | .ok b => b
  | .error _ => []

/-!
### Helper lemmas
-/

theorem unpack_packDigits (n : Nat) (h : n < 4294967296) :
    unpack_I (packDigits n) = .ok n := by
  simp only [unpack_I, packDigits]
  congr 1
  omega

theorem packDigits_length (n : Nat) : (packDigits n).length = 4 := rfl

/-- Once the cooperative stream is drained and the target is not yet
reached, the read loop never finishes: `recv` keeps returning `b''` and
the buffer stops growing (the source's `while` loop would spin
forever). -/
theorem recvLoop_drained_stuck (fuel target : Nat) (mess : List Nat)
    (h : mess.length < target) :
    recvLoop fullRecv fuel target mess [] = none := by
  induction fuel generalizing mess with
  | zero => rfl
  | succ f ih =>
    have step : recvLoop fullRecv (f + 1) target mess [] =
        recvLoop fullRecv f target (mess ++ []) [] := by
      simp only [recvLoop, if_pos h, fullRecv, List.take_nil, List.drop_nil]
    rw [step, List.append_nil]
    exact ih mess h

theorem dictInsert_length_le (d : List (String × String)) (k v : String) :
    (dictInsert d k v).length ≤ d.length + 1 := by
  unfold dictInsert
  split
  · simp
  · simp

/-- On an odd-length token list every run of the pairing loop from an
even position ends in `IndexError`: the dict never reaches
`len(sensorlist)/2` entries, so the loop oversteps the list. -/
theorem pairLoopGas_odd_indexError (l : List String) (hodd : l.length % 2 = 1) :
    ∀ gas i sensors, i % 2 = 0 → i < l.length →
      2 * sensors.length ≤ i →
      pairLoopGas l gas i sensors = .error .indexError := by
  intro gas
  induction gas with
  | zero =>
    intro i sensors hi hil hs
    rfl
  | succ g ih =>
    intro i sensors hi hil hs
    rw [pairLoopGas]
    rw [if_pos (by omega)]
    by_cases h2 : i + 1 < l.length
    · rw [dif_pos h2]
      apply ih
      · omega
      · omega
      · have := dictInsert_length_le sensors (l.get ⟨i, by omega⟩)
          (l.get ⟨i + 1, h2⟩)
        omega
    · rw [dif_neg h2]

/-- Specialization of `pairLoopGas_odd_indexError` to the loop's actual
starting state. -/
theorem pairLoop_odd_indexError (l : List String) (hodd : l.length % 2 = 1) :
    pairLoop l = .error .indexError := by
  unfold pairLoop
  exact pairLoopGas_odd_indexError l hodd (l.length + 1) 0 [] (by omega)
    (by omega) (by simp)

/-- `re.search(sensorupdate_re, '')` finds nothing, at any fuel. -/
theorem searchAux_sensorRx_nil (fuel : Nat) :
    searchAux fuel sensorRx [] = none := by
  cases fuel with
  | zero => rfl
  | succ f =>
    cases f with
    | zero => rfl
    | succ f2 => rfl

/-!
### Claim theorems
-/

/-- C1, counterexample: the claim `decode(frame(encode(P))) == P` fails
at `P = "hi"` — `receive` accumulates the payload into the same buffer
that holds the 4 length bytes and returns the whole buffer, so the
length header is returned, not consumed. -/
theorem c1_receive_keeps_length_header_cex :
    send_bytes "hi" = .ok [0, 0, 0, 2, 104, 105] ∧
    receive_raw fullRecv 2 [0, 0, 0, 2, 104, 105] =
      some (.ok (.bytes [0, 0, 0, 2, 104, 105])) ∧
    utf8Bytes "hi" = [104, 105] ∧
    ([0, 0, 0, 2, 104, 105] : List Nat) ≠ [104, 105] :=
  ⟨rfl, rfl, rfl, by decide⟩

/-- C1 (amended): for every payload string `P` whose UTF-8 encoding
fits the uint32 header, sending `P` and then receiving the frame (raw
mode) returns the 4-byte big-endian length header concatenated with the
UTF-8 bytes of `P`: the header is read but kept in the returned
value. -/
theorem c1_round_trip_amended (P : String)
    (h : (utf8Bytes P).length < 4294967296) :
    receive_raw fullRecv 2 (packDigits (utf8Bytes P).length ++ utf8Bytes P) =
      some (.ok (.bytes (packDigits (utf8Bytes P).length ++ utf8Bytes P))) := by
  revert h
  generalize utf8Bytes P = bs
  intro h
  have h4 : (packDigits bs.length).length = 4 := rfl
  have hne : packDigits bs.length ≠ [] := by simp [packDigits]
  have htake : (packDigits bs.length ++ bs).take 4 = packDigits bs.length := by
    rw [← h4, List.take_left]
  have hdrop : (packDigits bs.length ++ bs).drop 4 = bs := by
    rw [← h4, List.drop_left]
  unfold receive_raw
  simp only [fullRecv, htake, hdrop, if_neg hne, unpack_packDigits bs.length h]
  have hloop : recvLoop fullRecv 2 (bs.length + 4) (packDigits bs.length) bs =
      some (packDigits bs.length ++ bs, []) := by
    by_cases h0 : bs.length = 0
    · have hbnil : bs = [] := List.eq_nil_of_length_eq_zero h0
      subst hbnil
      rfl
    · rw [recvLoop]
      rw [if_pos (by omega)]
      simp only [fullRecv, h4]
      have harg : bs.length + 4 - 4 = bs.length := by omega
      rw [harg, List.take_length, List.drop_length]
      rw [recvLoop]
      rw [if_neg (by simp [h4]; omega)]
  rw [hloop]

/-- C1 witness: the amended round-trip theorem applied at `"hi"`. -/
theorem c1_round_trip_amended_witness :
    (utf8Bytes "hi").length < 4294967296 ∧
    receive_raw fullRecv 2 (packDigits (utf8Bytes "hi").length ++ utf8Bytes "hi") =
      some (.ok (.bytes (packDigits (utf8Bytes "hi").length ++ utf8Bytes "hi"))) :=
  ⟨by decide, c1_round_trip_amended "hi" (by decide)⟩

/-- C2, code bug: parsing `sensor-update "x" 5 "y" 10` yields only
`{x: "5"}` — `sensorupdate_re` demands a space after every value, the
final pair sits at the end of the string, so the match stops after
`"x" 5 ` and the pair `("y", "10")` is silently dropped, contradicting
the claimed `{x: "5", y: "10"}`. -/
theorem c2_sensor_parse_simple_code_behavior :
    parse_message 500 "sensor-update \"x\" 5 \"y\" 10" =
      .ok (some ⟨[("x", "5")], []⟩) ∧
    (⟨[("x", "5")], []⟩ : Parsed) ≠ ⟨[("x", "5"), ("y", "10")], []⟩ :=
  ⟨rfl, by decide⟩

/-- C3, counterexample: a connection closed after 2 of the 4 header
bytes makes `receive` fail with `struct.error` (short `unpack` buffer),
not with the `ConnectionError` the claim states — only `socket.error`
is re-raised as `ScratchConnectionError`. -/
theorem c3_mid_header_close_cex :
    receive_raw fullRecv 2 [0, 0] = some (.error .structError) ∧
    PyErr.structError ≠ PyErr.connectionError :=
  ⟨rfl, by decide⟩

/-- C3 (amended): a connection closed before any byte yields the
end-of-stream sentinel (confirmed); one closed after 2 of 4 header
bytes fails with `struct.error`, not `ConnectionError`; one closed
mid-payload (header announcing 10 bytes, only 3 delivered) makes
`receive` loop forever on empty reads — for every fuel the loop does
not finish. -/
theorem c3_close_behavior_amended :
    receive_raw fullRecv 2 [] = some (.ok .eos) ∧
    receive_raw fullRecv 2 [0, 0] = some (.error .structError) ∧
    ∀ fuel, receive_raw fullRecv fuel [0, 0, 0, 10, 1, 2, 3] = none := by
  refine ⟨rfl, rfl, fun fuel => ?_⟩
  cases fuel with
  | zero => rfl
  | succ f =>
    have step : receive_raw fullRecv (f + 1) [0, 0, 0, 10, 1, 2, 3] =
        match recvLoop fullRecv f 14 [0, 0, 0, 10, 1, 2, 3] [] with
        | none => none
        | some ms => some (.ok (.bytes ms.1)) := rfl
    rw [step, recvLoop_drained_stuck f 14 [0, 0, 0, 10, 1, 2, 3] (by norm_num)]

/-- C4, code bug: the length header is read by a single `recv(4)` call,
not a loop; over a transport delivering one byte per call, receiving a
10,000-byte frame crashes in `struct.unpack` with `struct.error`
instead of yielding the frame. -/
theorem c4_one_byte_transport_code_behavior :
    receive_raw oneRecv 20100 (packDigits 10000 ++ List.replicate 10000 65) =
      some (.error .structError) := rfl

/-- C5, code bug: parsing `sensor-update "my sensor" 42` yields an
EMPTY sensor mapping, not `{"my sensor": "42"}`: the regex requires a
space after the value, `42` ends the string, so `re.search` finds no
match at all and the multi-word reassembly never runs. -/
theorem c5_multiword_name_code_behavior :
    parse_message 500 "sensor-update \"my sensor\" 42" =
      .ok (some ⟨[], []⟩) ∧
    (⟨[], []⟩ : Parsed) ≠ ⟨[("my sensor", "42")], []⟩ :=
  ⟨rfl, by decide⟩

/-- C6, counterexample: the input `sensor-update "x" a b ` reassembles
to the odd-length token list `["x", "a", "b"]` and the parse call fails
with the built-in `IndexError`, not with a `ParseError` (the source
defines no such class). -/
theorem c6_odd_tokens_cex :
    sensorTokens 500 "sensor-update \"x\" a b " = ["x", "a", "b"] ∧
    parse_message 500 "sensor-update \"x\" a b " = .error .indexError ∧
    PyErr.indexError ≠ PyErr.parseError :=
  ⟨rfl, rfl, by decide⟩

/-- C6 (amended): for every input whose reassembled logical-token list
has odd length, the single parse call fails with `IndexError` (the
pairing loop indexes past the end of the list), not with a
`ParseError`; the trailing token is not silently dropped and the error
is confined to the one call. -/
theorem c6_odd_tokens_amended (fuel : Nat) (msg : String)
    (h : (sensorTokens fuel msg).length % 2 = 1) :
    parse_message fuel msg = .error .indexError := by
  unfold parse_message
  by_cases hm : msg.data = []
  · exfalso
    have hnil : sensorTokens fuel msg = [] := by
      unfold sensorTokens
      rw [hm, searchAux_sensorRx_nil]
    rw [hnil] at h
    simp at h
  · rw [if_neg hm]
    cases hs : searchAux fuel sensorRx msg.data with
    | none =>
      exfalso
      have hnil : sensorTokens fuel msg = [] := by
        unfold sensorTokens
        rw [hs]
      rw [hnil] at h
      simp at h
    | some mr =>
      rw [pairLoop_odd_indexError (sensorTokens fuel msg) h]

/-- C6 witness: the amended theorem applied at
`sensor-update "x" a b `. -/
theorem c6_odd_tokens_amended_witness :
    (sensorTokens 500 "sensor-update \"x\" a b ").length % 2 = 1 ∧
    parse_message 500 "sensor-update \"x\" a b " = .error .indexError :=
  ⟨rfl, c6_odd_tokens_amended 500 "sensor-update \"x\" a b " (by rfl)⟩

/-- C7 (confirmed): for every message whose UTF-8 encoding fits a
uint32, `_send` writes exactly the 4 big-endian digits of the UTF-8
BYTE length (not the character count) followed by the UTF-8 payload,
and decoding that header recovers the payload's byte length. -/
theorem c7_length_header_correct (msg : String)
    (h : (utf8Bytes msg).length < 4294967296) :
    send_bytes msg =
      .ok (packDigits (utf8Bytes msg).length ++ utf8Bytes msg) ∧
    unpack_I (packDigits (utf8Bytes msg).length) =
      .ok (utf8Bytes msg).length := by
  constructor
  · unfold send_bytes pack_I
    rw [if_pos h]
  · exact unpack_packDigits _ h

/-- C7 witness: at `"héllo"` (6 UTF-8 bytes for 5 characters). -/
theorem c7_length_header_correct_witness :
    (utf8Bytes "héllo").length < 4294967296 ∧
    (send_bytes "héllo" =
      .ok (packDigits (utf8Bytes "héllo").length ++ utf8Bytes "héllo") ∧
    unpack_I (packDigits (utf8Bytes "héllo").length) =
      .ok (utf8Bytes "héllo").length) :=
  ⟨by decide, c7_length_header_correct "héllo" (by decide)⟩

/-- C8 (confirmed): `broadcast "go" broadcast "stop"` parses to the
broadcast list `["go", "stop"]` in left-to-right match order with an
empty sensor mapping. -/
theorem c8_broadcast_parse_multiple :
    parse_message 500 "broadcast \"go\" broadcast \"stop\"" =
      .ok (some ⟨[], ["go", "stop"]⟩) := rfl

/-- C9 (confirmed): `sensorupdate` called with any non-dict argument
fails with `TypeError` and writes nothing to the connection. -/
theorem c9_sensorupdate_type_guard (a : PyArg) (h : isDict a = false) :
    sensorupdate a = .error .typeError ∧
    writtenBytes (sensorupdate a) = [] := by
  cases a with
  | dict entries => simp [isDict] at h
  | nonDict r => exact ⟨rfl, rfl⟩

/-- C9 witness: at the non-dict argument rendered `[1, 2]`. -/
theorem c9_sensorupdate_type_guard_witness :
    isDict (PyArg.nonDict "[1, 2]") = false ∧
    (sensorupdate (PyArg.nonDict "[1, 2]") = .error .typeError ∧
    writtenBytes (sensorupdate (PyArg.nonDict "[1, 2]")) = []) :=
  ⟨by decide, c9_sensorupdate_type_guard (PyArg.nonDict "[1, 2]") (by decide)⟩

/-- C10 (confirmed): `broadcast "rebroadcast"` parses to the event name
`"re"`: `str.replace('broadcast', '')` deletes every occurrence of the
substring, including the one inside the quoted name, before the
quote/space strip. -/
theorem c10_rebroadcast_deletion :
    parse_message 500 "broadcast \"rebroadcast\"" =
      .ok (some ⟨[], ["re"]⟩) := rfl

end Scratch


